import Mathlib

/-!
Verification of the Bloch-wave dynamical diffraction core of abTEM
(`abtem/bloch/dynamical.py`), as a shallow embedding in Lean 4.

Embedding conventions.

* Machine floating-point reals are embedded as exact reals (`ℝ`), and where a
  claim only needs ordered-field arithmetic that must run under `decide`,
  as rationals (`ℚ`).  Complex arrays are functions into `ℂ`.
* External collaborators that the source merely calls (numpy `eigh`,
  scipy `expm`, scipy `Rotation.from_euler`, the scattering-factor
  parametrization lookup, `energy2wavelength`, `energy2sigma`, the physical
  constant `kappa`, and the reciprocal cell matrix) are taken as parameters,
  or modelled by their mathematical contract where noted.
* Helper functions of this repository that live in modules outside `src`
  (`abtem/bloch/utils.py`, `abtem/core/...`) are modelled from the spec;
  each such definition says so in its doc comment.
-/

/-- A Miller index triple `(h, k, l)`, one row of the `(N, 3)` integer arrays
of the source. -/
abbrev Hkl : Type := Fin 3 → ℤ

/-- A real 3×3 matrix, as used for cells and rotation matrices. -/
abbrev Mat3 : Type := Matrix (Fin 3) (Fin 3) ℝ

/-- Embedding of `g = hkl @ rc`: the reciprocal-space vector of a Miller triple given the
reciprocal cell matrix `rc`.  Computing `rc` from the unit cell is
`reciprocal_cell` in `abtem/bloch/utils.py` (outside `src`), so the embedding
takes `rc` as an input. -/
noncomputable def gvec (rc : Mat3) (h : Hkl) : Fin 3 → ℝ :=
  fun j => ∑ k, (h k : ℝ) * rc k j

/-- Embedding of `calculate_M_matrix` (dynamical.py:754-778): the tilt-correction factors
`Mii = 1 / sqrt(1 + g[:, 2] / k0)` with `k0 = 1 / energy2wavelength(energy)`.
The electron wavelength `lam` is a parameter (`energy2wavelength` is in
`abtem/core/energy.py`, outside `src`; per the spec `k₀ = 1/λ`). -/
noncomputable def calculate_M_matrix {n : ℕ} (hkl : Fin n → Hkl) (rc : Mat3) (lam : ℝ) :
    Fin n → ℝ :=
  fun i => 1 / Real.sqrt (1 + gvec rc (hkl i) 2 / (1 / lam))

/-- Embedding of `calculate_structure_matrix` (dynamical.py:781-847).

* `S` models `retrieve_structure_factor_values` (in `abtem/bloch/utils.py`,
  outside `src`).  Modelled from the spec: it returns the structure-factor
  value at each queried Miller-index difference (the off-diagonal term is
  "derived from the structure factor at the pairwise index difference").
* The source computes `gmh = hkl_selected[None] - hkl_selected[:, None]`,
  so the entry in row `i`, column `j` queries `hkl_selected[j] - hkl_selected[i]`.
* `A *= prefactor * Mii[None] * Mii[:, None]` scales entry `(i, j)` by
  `prefactor * Mii j * Mii i` with
  `prefactor = energy2sigma(energy) / (kappa * energy2wavelength(energy) * pi)`;
  `sigmaE`, `kap`, `lam` stand for the external `energy2sigma(energy)`,
  `kappa` and `energy2wavelength(energy)`.
* `xp.fill_diagonal(A, diag)` overwrites the diagonal with
  `2 * 1/lam * sg * Mii`; the excitation errors `sg` are a parameter
  (`excitation_errors` is in `abtem/bloch/utils.py`, outside `src`). -/
noncomputable def calculate_structure_matrix {n : ℕ} (S : Hkl → ℂ) (hkl_selected : Fin n → Hkl)
    (rc : Mat3) (sg : Fin n → ℝ) (sigmaE kap lam : ℝ) :
    Matrix (Fin n) (Fin n) ℂ :=
  let Mii := calculate_M_matrix hkl_selected rc lam
  let prefactor := sigmaE / (kap * lam * Real.pi)
  fun i j =>
    if i = j then ((2 * (1 / lam) * sg i * Mii i : ℝ) : ℂ)
    else S (hkl_selected j - hkl_selected i) * ((prefactor * Mii j * Mii i : ℝ) : ℂ)

/-- The incident-beam vector of `calculate_dynamical_scattering`
(dynamical.py:891): `initial = np.all(hkl == [0, 0, 0], axis=1)`, the
indicator of the `(0,0,0)` direct beam. -/
noncomputable def incident_beam_vector {n : ℕ} (hkl : Fin n → Hkl) : Fin n → ℂ :=
  fun k => if hkl k = 0 then 1 else 0

/-- One thickness entry of `calculate_dynamical_scattering`
(dynamical.py:850-901).  The eigenpair `(v, C)` produced by
`xp.linalg.eigh(structure_matrix)` is an input (`eigh` is external LAPACK).
Following the source exactly:
`gamma = v * lam / 2`; `np.fill_diagonal(C, np.diag(C) / Mii)` rescales only
the diagonal entries of `C` by `1 / Mii`; `C_inv` is the conjugate transpose
of the modified `C`; the output row for a thickness `t` is
`C @ (exp(2j*pi*t*gamma) * (C_inv @ initial))`. -/
noncomputable def dynamical_scattering_at {n : ℕ} (v : Fin n → ℝ) (C : Matrix (Fin n) (Fin n) ℂ)
    (hkl : Fin n → Hkl) (rc : Mat3) (lam : ℝ) (thickness : ℝ) : Fin n → ℂ :=
  let Mii := calculate_M_matrix hkl rc lam
  let gamma : Fin n → ℝ := fun j => v j * lam / 2
  let Cmod : Matrix (Fin n) (Fin n) ℂ :=
    fun i j => if i = j then C i j / (Mii i : ℂ) else C i j
  let C_inv := Cmod.conjTranspose
  let alpha := C_inv.mulVec (incident_beam_vector hkl)
  Cmod.mulVec fun j =>
    Complex.exp (2 * Complex.I * (Real.pi : ℂ) * (thickness : ℂ) * (gamma j : ℂ))
      * alpha j

/-- Embedding of `calculate_dynamical_scattering` (dynamical.py:850-901): one output row per
requested thickness. -/
noncomputable def calculate_dynamical_scattering {n : ℕ} (v : Fin n → ℝ)
    (C : Matrix (Fin n) (Fin n) ℂ) (hkl : Fin n → Hkl) (rc : Mat3) (lam : ℝ)
    (thicknesses : List ℝ) : List (Fin n → ℂ) :=
  thicknesses.map (dynamical_scattering_at v C hkl rc lam)

/-- Embedding of `calculate_scattering_matrix` with the expm method (dynamical.py:952-998):
`S = expm(1j * pi * z * A * lam)` followed by `S = M @ S @ M_inv` with
`M = diag(Mii)`, `M_inv = diag(1 / Mii)`.  The external scipy/cupy `expm`
routine is modelled by its contract, the matrix exponential
(`NormedSpace.exp ℂ`). -/
noncomputable def calculate_scattering_matrix {n : ℕ} (A : Matrix (Fin n) (Fin n) ℂ)
    (hkl : Fin n → Hkl) (rc : Mat3) (lam z : ℝ) : Matrix (Fin n) (Fin n) ℂ :=
  let Mii := calculate_M_matrix hkl rc lam
  let S := NormedSpace.exp ℂ ((Complex.I * (Real.pi : ℂ) * (z : ℂ) * (lam : ℂ)) • A)
  (Matrix.diagonal fun i => (Mii i : ℂ)) * S * (Matrix.diagonal fun i => ((1 / Mii i : ℝ) : ℂ))

/-- Embedding of `validate_g_max` (dynamical.py:1001-1034) over exact rationals.  The result
carries the returned `g_max` together with a flag recording whether the
recoverable `warnings.warn` fired; `Except.error` models `raise ValueError`. -/
def validate_g_max (g_max structure_factor_g_max : Option ℚ) :
    Except String (ℚ × Bool) :=
  let r : Except String ℚ :=
    match g_max with
    | some g => Except.ok g
    | none =>
      match structure_factor_g_max with
      | none => Except.error "g_max must be provided if structure_factor is not provided"
      | some s => Except.ok (s / 2)
  match r with
  | Except.error e => Except.error e
  | Except.ok g =>
    let warned : Bool :=
      match structure_factor_g_max with
      | some s => decide (g > s / 2)
      | none => false
    Except.ok (g, warned)

/-- Embedding of `calculate_scattering_factors` (dynamical.py:56-126).  The per-species form
factor lookup `parametrization.scattering_factor(Z)` is external and passed as
`scattering_factor` (applied, as in the source, to `g ** 2`); `thermal_sigma`
and `occupancy` are the validated per-atom arrays.  The Debye-Waller factor,
the taper / hard cutoff arrays and the `ValueError` branch follow the source
verbatim. -/
noncomputable def calculate_scattering_factors {A G : ℕ} (scattering_factor : Fin A → ℝ → ℂ)
    (thermal_sigma occupancy : Fin A → ℝ) (g : Fin G → ℝ) (g_max : ℝ)
    (cutoff : String) : Except String (Fin A → Fin G → ℂ) :=
  let f_e : Fin A → Fin G → ℂ := fun i j =>
    let DWF : ℝ :=
      if thermal_sigma i ≠ 0 then
        Real.exp (-0.5 * thermal_sigma i ^ 2 * g j ^ 2 * (2 * Real.pi) ^ 2)
      else 1
    scattering_factor i (g j ^ 2) * ((DWF * occupancy i : ℝ) : ℂ)
  if cutoff = "taper" then
    Except.ok fun i j =>
      f_e i j * ((1 / (1 + Real.exp ((g j / g_max - (1 - 0.05)) / 0.005)) : ℝ) : ℂ)
  else if cutoff = "hard" then
    Except.ok fun i j => f_e i j * (if g j ≤ g_max then 1 else 0)
  else Except.error "cutoff must be taper or hard"

/-- The cutoff validation in `StructureFactor.__init__` (dynamical.py:401-404):
`if cutoff not in ("taper", "hard"): raise ValueError(...)`. -/
def structure_factor_init_cutoff_check (cutoff : String) : Except String Unit :=
  if cutoff ≠ "taper" ∧ cutoff ≠ "hard" then
    Except.error "cutoff must be taper, hard"
  else Except.ok ()

/-- Wrapping of a (possibly negative) numpy index into an axis of length `nn`,
the semantics of integer-array indexing/assignment used by
`structure_factor_1d_to_3d`. -/
def wrap_index (i : ℤ) (nn : ℕ) : ℕ := (i % (nn : ℤ)).toNat

/-- The grid position addressed by a Miller triple in a 3-D array of shape
`gpts` (numpy index semantics, negative indices wrapping). -/
def wrap3 (h : Hkl) (gpts : ℕ × ℕ × ℕ) : ℕ × ℕ × ℕ :=
  (wrap_index (h 0) gpts.1, wrap_index (h 1) gpts.2.1, wrap_index (h 2) gpts.2.2)

/-- Embedding of `structure_factor_1d_to_3d` (dynamical.py:200-223): start from a zero array
of shape `gpts` and execute
`structure_factor_3d[hkl[:, 0], hkl[:, 1], hkl[:, 2]] = structure_factor`.
The paired 1-D arrays `(hkl, structure_factor)` are given as a list of pairs;
numpy fancy-index assignment writes sequentially, so a later duplicate position
overwrites an earlier one.  The dense array is represented by its lookup
function on `ℕ`-index triples; the element type `V` is the array dtype
(complex for structure factors — the assignment logic is dtype-generic). -/
def structure_factor_1d_to_3d {V : Type} [Zero V] (vals : List (Hkl × V))
    (gpts : ℕ × ℕ × ℕ) : ℕ × ℕ × ℕ → V :=
  vals.foldl (fun Acc p => fun pos => if pos = wrap3 p.1 gpts then p.2 else Acc pos)
    (fun _ => 0)

/-- The orientation matrix of `BlochwaveEnsemble.get_orientation_matrices`
(dynamical.py:1706-1726) at one fixed ensemble index.  `Rs` lists, in
declaration order, the elementary rotation matrices
`Rotation.from_euler(axes_k, value_k).as_matrix()` selected at that index
(`from_euler` is external scipy).  The source iterates the declared pairs in
reverse (`zip(self.axes[::-1], self.rotations[::-1])`) and right-multiplies:
`orientation_matrices = orientation_matrices @ R`. -/
noncomputable def get_orientation_matrices_at (Rs : List Mat3) : Mat3 :=
  Rs.reverse.foldl (fun O R => O * R) 1

/-- The single-rotation path of `BlochWaves.rotate` (dynamical.py:1596-1614):
iterate the declared pairs in order and left-multiply:
`orientation_matrix = R @ orientation_matrix`. -/
noncomputable def blochwaves_rotate_orientation (Rs : List Mat3) : Mat3 :=
  Rs.foldl (fun O R => R * O) 1

/-- One loop iteration of
`BlochwaveEnsemble._calculate_diffraction_intensities` (dynamical.py:1877-1937).
For the orientation `o`, `ownMask o b` says whether union-index beam `b` is in
the own beam set of that orientation (`bw.hkl_mask[hkl_mask]`), and `vals o t b` is
the solved pattern value there (the `BlochWaves` solve is the pure
per-orientation function the blocks share).  The source line
`array[..., bw.hkl_mask[hkl_mask]] = diffraction_patterns.array`
assigns at every leading (ensemble-row) index `r`, which this step reproduces
faithfully: the row index `r` is not consulted. -/
def write_orientation_block (O ι V : Type) [Zero V] {T B : ℕ}
    (ownMask : O → Fin B → Bool) (vals : O → Fin T → Fin B → V)
    (Acc : ι → Fin T → Fin B → V) (o : O) : ι → Fin T → Fin B → V :=
  fun r t b => if ownMask o b then vals o t b else Acc r t b

/-- Embedding of `BlochwaveEnsemble._calculate_diffraction_intensities`
(dynamical.py:1877-1937), eager path: pre-allocate a zero array of shape
`ensemble_shape + (T, B)` (rows indexed by `ι`) and iterate every ensemble
index in order, executing the masked assignment of `write_orientation_block`. -/
def calculate_diffraction_intensities (O ι V : Type) [Zero V] {T B : ℕ}
    (os : List O) (ownMask : O → Fin B → Bool) (vals : O → Fin T → Fin B → V) :
    ι → Fin T → Fin B → V :=
  os.foldl (write_orientation_block O ι V ownMask vals) (fun _ _ _ => 0)

/-- Embedding of `BlochwaveEnsemble._lazy_calculate_diffraction_patterns`
(dynamical.py:1960-1995): the ensemble is partitioned by
`self.ensemble_blocks(1)` into size-one blocks; each block runs
`_run_calculate_diffraction_patterns`, i.e. the same eager routine on its
own singleton sub-ensemble (with the shared union `hkl_mask`), and
`da.blockwise` concatenates the block outputs deterministically in ensemble
index order.  The result is the list of per-orientation rows. -/
def lazy_calculate_diffraction_patterns (O V : Type) [Zero V] {T B : ℕ}
    (os : List O) (ownMask : O → Fin B → Bool) (vals : O → Fin T → Fin B → V) :
    List (Fin T → Fin B → V) :=
  os.map fun o =>
    calculate_diffraction_intensities O PUnit V [o] ownMask vals PUnit.unit

/-- A concrete orthogonal (hence unitary) eigenvector matrix with rational
entries, a valid `eigh` output used in the dynamical-scattering
counterexamples. -/
noncomputable def exC : Matrix (Fin 2) (Fin 2) ℂ :=
  !![((3 / 5 : ℝ) : ℂ), ((-4 / 5 : ℝ) : ℂ); ((4 / 5 : ℝ) : ℂ), ((3 / 5 : ℝ) : ℂ)]

/-- A concrete two-beam list: the `(0,0,0)` direct beam and the `(0,0,1)`
beam. -/
def exHkl : Fin 2 → Hkl := ![![0, 0, 0], ![0, 0, 1]]

/-- A concrete reciprocal cell whose only nonzero entry gives the `(0,0,1)`
beam the z-component `3`, so at wavelength `1` its tilt factor is
`1 / sqrt(1 + 3) = 1 / 2`. -/
noncomputable def exRc : Mat3 := !![0, 0, 0; 0, 0, 0; 0, 0, 3]

/-- Concrete ascending eigenvalues paired with `exC`. -/
noncomputable def exV : Fin 2 → ℝ := ![-1, 1]

/-! ## Theorems -/

/-- Claim C10: `validate_g_max` with `g_max = None` and a structure factor
present returns exactly half the `g_max` of the structure factor and does not warn;
with both `g_max` and the structure factor `None` it raises a `ValueError`. -/
theorem validate_g_max_default_half_and_error (s : ℚ) :
    validate_g_max none (some s) = Except.ok (s / 2, false) ∧
      validate_g_max none none =
        Except.error "g_max must be provided if structure_factor is not provided" := by
  refine ⟨?_, rfl⟩
  simp [validate_g_max]

/-- Claim C8: for a requested beam-selection `g_max` strictly greater than half
the own `g_max` of the structure-factor table, `validate_g_max` fires the
recoverable warning and still returns that `g_max` (an `ok` result, not a
`raise`), so the computation proceeds. -/
theorem validate_g_max_excess_warns_and_returns (g s : ℚ) (h : g > s / 2) :
    validate_g_max (some g) (some s) = Except.ok (g, true) := by
  simp [validate_g_max, h]

/-- Witness for claim C8 at `g_max = 2`, structure-factor `g_max = 3`. -/
theorem validate_g_max_excess_warns_and_returns_witness :
    (2 : ℚ) > 3 / 2 ∧ validate_g_max (some 2) (some 3) = Except.ok (2, true) :=
  ⟨by norm_num, validate_g_max_excess_warns_and_returns 2 3 (by norm_num)⟩

/-- The parenthesised-product helper shared by the orientation theorems:
folding `fun O R => R * O` from `a` multiplies the reversed list product onto
the left of `a`. -/
theorem foldl_flip_mul {M : Type} [Monoid M] (l : List M) (a : M) :
    l.foldl (fun O R => R * O) a = l.reverse.prod * a := by
  induction l generalizing a with
  | nil => simp
  | cons x xs ih =>
      simp only [List.foldl_cons, ih, List.reverse_cons, List.prod_append,
        List.prod_singleton, List.prod_nil, mul_assoc]

/-- Claim C1 (code evaluated at the failing input): a two-orientation
ensemble in which orientation `0` solves to the constant pattern `1` and
orientation `1` to the constant pattern `2`, with every union beam present in
both orientations.  The eager path
(`_calculate_diffraction_intensities`, whose write
`array[..., bw.hkl_mask[hkl_mask]] = diffraction_patterns.array` ignores the
ensemble index) leaves the pattern of the *last* orientation in ensemble row `0`,
while the deferred/chunked path (`_lazy_calculate_diffraction_patterns`,
size-one blocks concatenated in index order) puts the own pattern of
orientation `0` there, so the two execution paths disagree. -/
theorem ensemble_eager_write_ignores_row_index :
    calculate_diffraction_intensities (Fin 2) (Fin 2) ℚ [0, 1]
        (fun _ _ => true)
        (fun (o : Fin 2) (_ : Fin 1) (_ : Fin 1) => if o = 0 then (1 : ℚ) else 2)
        0 0 0 = 2 ∧
      (lazy_calculate_diffraction_patterns (Fin 2) ℚ [0, 1]
          (fun _ _ => true)
          (fun (o : Fin 2) (_ : Fin 1) (_ : Fin 1) => if o = 0 then (1 : ℚ) else 2)).headI
        0 0 = 1 ∧
      (2 : ℚ) ≠ 1 := by
  refine ⟨?_, ?_, by norm_num⟩ <;> decide

/-- Claim C7, counterexample to the declared-order product: with the
elementary scipy rotation matrices `R_x(90°)` and `R_z(90°)` declared in
that order, the composed orientation matrix is *not* the declared-order
product `R_x · R_z` (it is `R_z · R_x`: the first declared axis is applied
first, not last). -/
theorem get_orientation_matrices_at_not_declared_order_product :
    get_orientation_matrices_at
        [!![(1 : ℝ), 0, 0; 0, 0, -1; 0, 1, 0], !![(0 : ℝ), -1, 0; 1, 0, 0; 0, 0, 1]] ≠
      List.prod
        [!![(1 : ℝ), 0, 0; 0, 0, -1; 0, 1, 0], !![(0 : ℝ), -1, 0; 1, 0, 0; 0, 0, 1]] := by
  intro h
  rw [← Matrix.ext_iff] at h
  have h01 := h 0 1
  simp [get_orientation_matrices_at, Matrix.mul_apply, Fin.sum_univ_three] at h01

/-- Claim C7 as amended: both the ensemble path
(`BlochwaveEnsemble.get_orientation_matrices`, at any fixed ensemble index)
and the single-rotation path of `BlochWaves.rotate` compose the declared
elementary rotations into the *reverse*-declared-order matrix product
`R_axisK · … · R_axis1`, so the first declared axis is the rightmost factor
(applied first to a column vector); in particular the two paths compose the
same product. -/
theorem orientation_matrices_reverse_declared_product (Rs : List Mat3) :
    get_orientation_matrices_at Rs = Rs.reverse.prod ∧
      blochwaves_rotate_orientation Rs = Rs.reverse.prod := by
  constructor
  · rw [get_orientation_matrices_at, List.prod_eq_foldl]
  · rw [blochwaves_rotate_orientation, foldl_flip_mul, mul_one]

/-- Claim C9: any cutoff mode other than `"taper"` or `"hard"` makes
`calculate_scattering_factors` (and the `StructureFactor` constructor check)
fail with a `ValueError`; mode `"taper"` multiplies the form factors by the
logistic roll-off `1 / (1 + exp((g/g_max - 0.95) / 0.005))` and mode
`"hard"` by the step function `g ≤ g_max`. -/
theorem calculate_scattering_factors_cutoff_semantics {A G : ℕ}
    (scattering_factor : Fin A → ℝ → ℂ) (thermal_sigma occupancy : Fin A → ℝ)
    (g : Fin G → ℝ) (g_max : ℝ) (c : String)
    (h1 : c ≠ "taper") (h2 : c ≠ "hard") :
    calculate_scattering_factors scattering_factor thermal_sigma occupancy g g_max c =
        Except.error "cutoff must be taper or hard" ∧
      structure_factor_init_cutoff_check c =
        Except.error "cutoff must be taper, hard" ∧
      calculate_scattering_factors scattering_factor thermal_sigma occupancy g g_max
          "taper" =
        Except.ok (fun i j =>
          (scattering_factor i (g j ^ 2) *
              (((if thermal_sigma i ≠ 0 then
                    Real.exp (-0.5 * thermal_sigma i ^ 2 * g j ^ 2 * (2 * Real.pi) ^ 2)
                  else 1) * occupancy i : ℝ) : ℂ)) *
            ((1 / (1 + Real.exp ((g j / g_max - 0.95) / 0.005)) : ℝ) : ℂ)) ∧
      calculate_scattering_factors scattering_factor thermal_sigma occupancy g g_max
          "hard" =
        Except.ok (fun i j =>
          (scattering_factor i (g j ^ 2) *
              (((if thermal_sigma i ≠ 0 then
                    Real.exp (-0.5 * thermal_sigma i ^ 2 * g j ^ 2 * (2 * Real.pi) ^ 2)
                  else 1) * occupancy i : ℝ) : ℂ)) *
            (if g j ≤ g_max then 1 else 0)) := by
  have halpha : (1 : ℝ) - 0.05 = 0.95 := by norm_num
  refine ⟨?_, ?_, ?_, ?_⟩
  · simp [calculate_scattering_factors, h1, h2]
  · simp [structure_factor_init_cutoff_check, h1, h2]
  · simp [calculate_scattering_factors, halpha]
  · simp [calculate_scattering_factors]

/-- Witness for claim C9 at the invalid cutoff mode `"linear"` and the
one-atom, one-g-value inputs `scattering_factor = 1`, `sigma = 0`,
`occupancy = 1`, `g = 0`, `g_max = 1`. -/
theorem calculate_scattering_factors_cutoff_semantics_witness :
    ("linear" ≠ "taper") ∧ ("linear" ≠ "hard") ∧
      calculate_scattering_factors (fun (_ : Fin 1) (_ : ℝ) => (1 : ℂ))
          (fun _ => 0) (fun _ => 1) (fun (_ : Fin 1) => 0) 1 "linear" =
        Except.error "cutoff must be taper or hard" :=
  ⟨by simp, by simp,
    (calculate_scattering_factors_cutoff_semantics (fun _ _ => (1 : ℂ)) (fun _ => 0)
      (fun _ => 1) (fun _ => 0) 1 "linear" (by simp) (by simp)).1⟩

/-- Fold helper for `structure_factor_1d_to_3d`: a grid position written by no
list entry keeps its initial value. -/
theorem sf_fold_apply_not_written {V : Type} (gpts : ℕ × ℕ × ℕ)
    (l : List (Hkl × V)) (f : ℕ × ℕ × ℕ → V) (pos : ℕ × ℕ × ℕ)
    (h : ∀ p ∈ l, pos ≠ wrap3 p.1 gpts) :
    l.foldl (fun Acc p => fun q => if q = wrap3 p.1 gpts then p.2 else Acc q) f pos
      = f pos := by
  induction l generalizing f with
  | nil => rfl
  | cons q t ih =>
      rw [List.foldl_cons, ih _ fun p hp => h p (List.mem_cons_of_mem q hp)]
      exact if_neg (h q (List.mem_cons_self q t))

/-- Fold helper for `structure_factor_1d_to_3d`: when the wrapped grid
positions of the list are pairwise distinct, the position of each entry holds
the value of that entry after the fold. -/
theorem sf_fold_apply_written {V : Type} (gpts : ℕ × ℕ × ℕ)
    (l : List (Hkl × V)) (f : ℕ × ℕ × ℕ → V) (p : Hkl × V) (hmem : p ∈ l)
    (hnodup : (l.map fun q => wrap3 q.1 gpts).Nodup) :
    l.foldl (fun Acc p => fun q => if q = wrap3 p.1 gpts then p.2 else Acc q) f
        (wrap3 p.1 gpts) = p.2 := by
  induction l generalizing f with
  | nil => cases hmem
  | cons q t ih =>
      rw [List.map_cons, List.nodup_cons] at hnodup
      rw [List.foldl_cons]
      rcases List.mem_cons.mp hmem with rfl | hp
      · have hq : ∀ r ∈ t, wrap3 p.1 gpts ≠ wrap3 r.1 gpts := by
          intro r hr heq
          exact hnodup.1 (heq ▸ List.mem_map_of_mem (fun q => wrap3 q.1 gpts) hr)
        rw [sf_fold_apply_not_written gpts t _ _ hq, if_pos rfl]
      · exact ih _ hp hnodup.2

/-- Claim C6, counterexample to the literal statement: for the grid shape
`gpts = (4, 1, 1)` the Miller indices `(3,0,0)` and `(-1,0,0)` are distinct
and both fit in the grid (numpy index range `[-4, 4)`), yet they wrap to the
same grid cell, so indexing the output of `structure_factor_1d_to_3d` at the
first original Miller index returns the second value `2`, not the original
first value `1`. -/
theorem structure_factor_1d_to_3d_roundtrip_counterexample :
    structure_factor_1d_to_3d [(![3, 0, 0], (1 : ℂ)), (![-1, 0, 0], 2)] (4, 1, 1)
        (wrap3 ![3, 0, 0] (4, 1, 1)) = 2 ∧ (2 : ℂ) ≠ 1 := by
  constructor
  · rfl
  · norm_num

/-- Claim C6 as amended: provided the listed Miller indices address pairwise
distinct grid cells under numpy index wrapping (as distinct in-range indices
do whenever no two are componentwise congruent modulo the grid shape — in
particular for the canonical Miller range of an odd grid), indexing the
output of `structure_factor_1d_to_3d` at each original Miller index
reproduces the corresponding original 1-D value exactly, and every grid
point not addressed by any listed Miller index is exactly zero. -/
theorem structure_factor_1d_to_3d_roundtrip {V : Type} [Zero V]
    (vals : List (Hkl × V)) (gpts : ℕ × ℕ × ℕ)
    (hnodup : (vals.map fun p => wrap3 p.1 gpts).Nodup) :
    (∀ p ∈ vals, structure_factor_1d_to_3d vals gpts (wrap3 p.1 gpts) = p.2) ∧
      ∀ pos : ℕ × ℕ × ℕ, (∀ p ∈ vals, pos ≠ wrap3 p.1 gpts) →
        structure_factor_1d_to_3d vals gpts pos = 0 := by
  constructor
  · intro p hp
    exact sf_fold_apply_written gpts vals _ p hp hnodup
  · intro pos h
    exact sf_fold_apply_not_written gpts vals _ pos h

/-- Witness for the amended claim C6 on the list
`[(0,0,0) ↦ 5, (1,0,0) ↦ 7]` with grid shape `(3, 1, 1)`. -/
theorem structure_factor_1d_to_3d_roundtrip_witness :
    (([(![0, 0, 0], (5 : ℚ)), (![1, 0, 0], 7)].map
        fun p => wrap3 p.1 (3, 1, 1)).Nodup) ∧
      structure_factor_1d_to_3d [(![0, 0, 0], (5 : ℚ)), (![1, 0, 0], 7)] (3, 1, 1)
        (wrap3 ![0, 0, 0] (3, 1, 1)) = 5 :=
  ⟨by decide,
    (structure_factor_1d_to_3d_roundtrip
          [(![0, 0, 0], (5 : ℚ)), (![1, 0, 0], 7)] (3, 1, 1) (by decide)).1
      (![0, 0, 0], 5) (by decide)⟩

/-- Claim C2, counterexample to the stated difference direction: with the
structure-factor lookup that is `1` at `(-1,0,0)` and `0` elsewhere, beams
`h_0 = (0,0,0)`, `h_1 = (1,0,0)`, zero reciprocal cell, zero excitation
errors and `sigma = kappa = lambda = 1`, the entry `(0,1)` of
`calculate_structure_matrix` is `S(h_1 - h_0) · (…) = 0`, not the claimed
`prefactor · M_0 · M_1 · S(h_0 - h_1) = (1/pi) · 1 · 1 · 1 ≠ 0`. -/
theorem calculate_structure_matrix_offdiag_counterexample :
    calculate_structure_matrix (fun g => if g 0 = -1 then (1 : ℂ) else 0)
        ![![0, 0, 0], ![1, 0, 0]] 0 (fun _ => 0) 1 1 1 0 1 ≠
      ((1 / (1 * 1 * Real.pi) : ℝ) : ℂ) * ((1 / Real.sqrt (1 + 0 * 1) : ℝ) : ℂ) *
        ((1 / Real.sqrt (1 + 0 * 1) : ℝ) : ℂ) *
        (if ((![![0, 0, 0], ![1, 0, 0]] : Fin 2 → Hkl) 0 -
              (![![0, 0, 0], ![1, 0, 0]] : Fin 2 → Hkl) 1) 0 = -1
          then (1 : ℂ) else 0) := by
  have hlhs :
      calculate_structure_matrix (fun g => if g 0 = -1 then (1 : ℂ) else 0)
        ![![0, 0, 0], ![1, 0, 0]] 0 (fun _ => 0) 1 1 1 0 1 = 0 := by
    simp [calculate_structure_matrix]
  rw [hlhs]
  have harg : ((![![0, 0, 0], ![1, 0, 0]] : Fin 2 → Hkl) 0 -
      (![![0, 0, 0], ![1, 0, 0]] : Fin 2 → Hkl) 1) 0 = -1 := by
    simp
  intro h
  rw [if_pos harg] at h
  simp [Real.sqrt_one] at h
  exact Real.pi_ne_zero (by exact_mod_cast h.symm)

/-- Claim C2 as amended: for every structure-factor lookup containing the
needed differences, the matrix built by `calculate_structure_matrix` has
off-diagonal entry `(i, j)` equal to
`prefactor · M_i · M_j · S(h_j - h_i)` — the lookup is at `h_j - h_i`
(column minus row), not at `h_i - h_j` as stated — with
`prefactor = sigma / (kappa · lambda · pi)` and
`M_i = 1 / sqrt(1 + g_i,z · lambda)`, and diagonal entry `i` equal to
`2 · sg_i / lambda · M_i`, the diagonal overwriting (not adding to) any
self-term of the lookup at the zero difference. -/
theorem calculate_structure_matrix_entries {n : ℕ} (S : Hkl → ℂ)
    (hkl : Fin n → Hkl) (rc : Mat3) (sg : Fin n → ℝ) (sigmaE kap lam : ℝ)
    (i j : Fin n) (hij : i ≠ j) :
    calculate_structure_matrix S hkl rc sg sigmaE kap lam i j =
        ((sigmaE / (kap * lam * Real.pi) : ℝ) : ℂ) *
          ((1 / Real.sqrt (1 + gvec rc (hkl i) 2 * lam) : ℝ) : ℂ) *
          ((1 / Real.sqrt (1 + gvec rc (hkl j) 2 * lam) : ℝ) : ℂ) *
          S (hkl j - hkl i) ∧
      calculate_structure_matrix S hkl rc sg sigmaE kap lam i i =
        ((2 * sg i / lam * (1 / Real.sqrt (1 + gvec rc (hkl i) 2 * lam)) : ℝ) : ℂ) := by
  have hdiv : ∀ x : ℝ, x / (1 / lam) = x * lam := fun x => by rw [one_div, div_inv_eq_mul]
  constructor
  · rw [calculate_structure_matrix]
    simp only [if_neg hij, calculate_M_matrix, hdiv]
    push_cast
    ring
  · rw [calculate_structure_matrix]
    simp only [if_pos rfl, calculate_M_matrix, hdiv]
    push_cast
    ring

/-- Witness for the amended claim C2 at the two-beam instance
`S = 0`, beams `(0,0,0)` and `(1,0,0)`, zero reciprocal cell, unit
excitation errors and `sigma = kappa = lambda = 1`, at `(i, j) = (0, 1)`. -/
theorem calculate_structure_matrix_entries_witness :
    ((0 : Fin 2) ≠ 1) ∧
      (calculate_structure_matrix (fun _ => 0) ![![0, 0, 0], ![1, 0, 0]] 0
            (fun _ => 1) 1 1 1 0 1 =
          ((1 / (1 * 1 * Real.pi) : ℝ) : ℂ) *
            ((1 / Real.sqrt (1 + gvec 0 ((![![0, 0, 0], ![1, 0, 0]] : Fin 2 → Hkl) 0) 2 * 1) : ℝ) : ℂ) *
            ((1 / Real.sqrt (1 + gvec 0 ((![![0, 0, 0], ![1, 0, 0]] : Fin 2 → Hkl) 1) 2 * 1) : ℝ) : ℂ) *
            (fun _ : Hkl => (0 : ℂ))
              ((![![0, 0, 0], ![1, 0, 0]] : Fin 2 → Hkl) 1 -
                (![![0, 0, 0], ![1, 0, 0]] : Fin 2 → Hkl) 0) ∧
        calculate_structure_matrix (fun _ => 0) ![![0, 0, 0], ![1, 0, 0]] 0
            (fun _ => 1) 1 1 1 0 0 =
          ((2 * 1 / 1 *
              (1 / Real.sqrt (1 + gvec 0 ((![![0, 0, 0], ![1, 0, 0]] : Fin 2 → Hkl) 0) 2 * 1)) : ℝ) : ℂ)) :=
  ⟨by decide,
    calculate_structure_matrix_entries (fun _ => 0) ![![0, 0, 0], ![1, 0, 0]] 0
      (fun _ => 1) 1 1 1 0 1 (by decide)⟩

/-- Claim C3: whenever the structure-factor table has the conjugate symmetry
of a real crystal potential, `S(-g) = conj (S g)`, the matrix built by
`calculate_structure_matrix` is Hermitian. -/
theorem calculate_structure_matrix_hermitian {n : ℕ} (S : Hkl → ℂ)
    (hkl : Fin n → Hkl) (rc : Mat3) (sg : Fin n → ℝ) (sigmaE kap lam : ℝ)
    (hS : ∀ g : Hkl, S (-g) = (starRingEnd ℂ) (S g)) :
    (calculate_structure_matrix S hkl rc sg sigmaE kap lam).IsHermitian := by
  rw [Matrix.IsHermitian]
  ext i j
  rw [Matrix.conjTranspose_apply]
  by_cases hij : i = j
  · subst hij
    simp [calculate_structure_matrix]
  · have hji : ¬j = i := fun h => hij h.symm
    simp only [calculate_structure_matrix, if_neg hij, if_neg hji, star_mul']
    rw [Complex.star_def, ← hS (hkl i - hkl j), neg_sub, Complex.conj_ofReal]
    have hr : sigmaE / (kap * lam * Real.pi) * calculate_M_matrix hkl rc lam i *
        calculate_M_matrix hkl rc lam j =
        sigmaE / (kap * lam * Real.pi) * calculate_M_matrix hkl rc lam j *
          calculate_M_matrix hkl rc lam i := by ring
    rw [hr]

/-- Witness for claim C3 at the zero structure-factor lookup (which is
conjugate-symmetric) on a single-beam selection. -/
theorem calculate_structure_matrix_hermitian_witness :
    (calculate_structure_matrix (fun _ => 0) ![![0, 0, 0]] 0 (fun _ => 1) 1 1 1).IsHermitian :=
  calculate_structure_matrix_hermitian (fun _ => 0) ![![0, 0, 0]] 0 (fun _ => 1)
    1 1 1 (fun g => by simp)

/-- Tilt factors of the concrete instance: the direct beam has `M = 1`, the
`(0,0,1)` beam has `M = 1/2`. -/
theorem exM_eval : calculate_M_matrix exHkl exRc 1 = ![1, 1 / 2] := by
  have h4 : Real.sqrt 4 = 2 := by
    rw [show (4 : ℝ) = 2 ^ 2 by norm_num, Real.sqrt_sq (by norm_num : (0 : ℝ) ≤ 2)]
  funext i
  fin_cases i
  · simp [calculate_M_matrix, gvec, exHkl, exRc, Fin.sum_univ_three]
  · simp [calculate_M_matrix, gvec, exHkl, exRc, Fin.sum_univ_three]
    norm_num [h4]

/-- Incident vector of the concrete instance: the unit vector at beam `0`. -/
theorem exInit_eval : incident_beam_vector exHkl = fun k => if k = 0 then 1 else 0 := by
  funext k
  fin_cases k <;> simp [incident_beam_vector, exHkl]

/-- The concrete eigenvector matrix is unitary. -/
theorem exC_unitary : exC * exC.conjTranspose = 1 ∧ exC.conjTranspose * exC = 1 := by
  constructor <;>
  · ext i j
    fin_cases i <;> fin_cases j <;>
      · simp [exC, Matrix.mul_apply, Fin.sum_univ_two, Matrix.conjTranspose_apply,
          Complex.conj_ofReal]
        push_cast [map_ofNat]
        norm_num

/-- Value of the eigendecomposition path of the concrete instance at
thickness `0`, beam `1`: the `fill_diagonal` rescaling by `1/M` makes it
`-12/25` instead of `0`. -/
theorem exEigen_eval : dynamical_scattering_at exV exC exHkl exRc 1 0 1 = ((-12 / 25 : ℝ) : ℂ) := by
  simp only [dynamical_scattering_at, exM_eval]
  simp [Matrix.mulVec, Matrix.dotProduct, Fin.sum_univ_two, Matrix.conjTranspose_apply,
    exC, exInit_eval, Complex.conj_ofReal, Complex.ofReal_zero, Complex.exp_zero]
  push_cast [map_ofNat]
  norm_num

/-- Claim C5, counterexample to the literal statement: `exC` is a valid
unitary `eigh` eigenvector matrix, the beam list `exHkl` contains exactly one
`(0,0,0)` entry (at index `0`), yet at thickness `0` the eigendecomposition
path returns `-12/25` (not `0`) for the other beam, because
`np.fill_diagonal(C, np.diag(C) / Mii)` rescales only the diagonal entries of
the eigenvector matrix and the `(0,0,1)` beam has tilt factor `1/2 ≠ 1`. -/
theorem dynamical_scattering_zero_thickness_counterexample :
    exC * exC.conjTranspose = 1 ∧ exC.conjTranspose * exC = 1 ∧
      exHkl 0 = 0 ∧ exHkl 1 ≠ 0 ∧
      dynamical_scattering_at exV exC exHkl exRc 1 0 1 ≠ 0 := by
  refine ⟨exC_unitary.1, exC_unitary.2, ?_, ?_, ?_⟩
  · funext j
    fin_cases j <;> simp [exHkl]
  · intro h
    have := congrFun h 2
    simp [exHkl] at this
  · rw [exEigen_eval]
    intro h
    rw [Complex.ofReal_eq_zero] at h
    norm_num at h

/-- Shared reduction of `dynamical_scattering_at` when every tilt factor is
`1`: the diagonal rescaling is the identity, leaving the plain
eigendecomposition propagator. -/
theorem dynamical_scattering_at_tilt_free {n : ℕ} (v : Fin n → ℝ)
    (C : Matrix (Fin n) (Fin n) ℂ) (hkl : Fin n → Hkl) (rc : Mat3) (lam t : ℝ)
    (hM : ∀ i, calculate_M_matrix hkl rc lam i = 1) :
    dynamical_scattering_at v C hkl rc lam t =
      C.mulVec fun j =>
        Complex.exp (2 * Complex.I * (Real.pi : ℂ) * (t : ℂ) * ((v j * lam / 2 : ℝ) : ℂ)) *
          (C.conjTranspose.mulVec (incident_beam_vector hkl)) j := by
  have hCmod :
      (fun i j => if i = j then C i j / ((calculate_M_matrix hkl rc lam i : ℝ) : ℂ)
        else C i j) = C := by
    funext i j
    by_cases h : i = j <;> simp [h, hM]
  simp only [dynamical_scattering_at]
  rw [hCmod]

/-- Claim C5 as amended: when additionally every tilt factor `M_i` equals `1`
(no beam has a nonzero reciprocal z-component), the eigendecomposition path at
thickness `0` returns amplitude `1` for the unique `(0,0,0)` beam and `0` for
every other beam. -/
theorem dynamical_scattering_zero_thickness_identity {n : ℕ} (v : Fin n → ℝ)
    (C : Matrix (Fin n) (Fin n) ℂ) (hkl : Fin n → Hkl) (rc : Mat3) (lam : ℝ)
    (i0 : Fin n) (hC : C * C.conjTranspose = 1)
    (hM : ∀ i, calculate_M_matrix hkl rc lam i = 1)
    (h0 : hkl i0 = 0) (huniq : ∀ k, k ≠ i0 → hkl k ≠ 0) :
    dynamical_scattering_at v C hkl rc lam 0 = fun k => if k = i0 then 1 else 0 := by
  rw [dynamical_scattering_at_tilt_free v C hkl rc lam 0 hM]
  have hinit : incident_beam_vector hkl = fun k => if k = i0 then 1 else 0 := by
    funext k
    by_cases hk : k = i0
    · subst hk
      simp [incident_beam_vector, h0]
    · simp [incident_beam_vector, huniq k hk, hk]
  have hexp : (fun j =>
      Complex.exp (2 * Complex.I * (Real.pi : ℂ) * ((0 : ℝ) : ℂ) * ((v j * lam / 2 : ℝ) : ℂ)) *
        (C.conjTranspose.mulVec (incident_beam_vector hkl)) j) =
      C.conjTranspose.mulVec (incident_beam_vector hkl) := by
    funext j
    norm_num
  rw [hexp, Matrix.mulVec_mulVec, hC, Matrix.one_mulVec, hinit]

/-- Witness for the amended claim C5 on the trivial one-beam instance. -/
theorem dynamical_scattering_zero_thickness_identity_witness :
    ((1 : Matrix (Fin 1) (Fin 1) ℂ) * (1 : Matrix (Fin 1) (Fin 1) ℂ).conjTranspose = 1) ∧
      dynamical_scattering_at (fun _ => 0) (1 : Matrix (Fin 1) (Fin 1) ℂ)
          (fun _ => (0 : Hkl)) 0 1 0 =
        fun k => if k = (0 : Fin 1) then 1 else 0 :=
  ⟨by simp,
    dynamical_scattering_zero_thickness_identity (fun _ => 0) 1 (fun _ => 0) 0 1 0
      (by simp) (fun i => by simp [calculate_M_matrix, gvec]) rfl
      (fun k hk => absurd (Subsingleton.elim k 0) hk)⟩

/-- Value of the matrix-exponential path of the concrete instance at
thickness `0`: the scattering matrix is `M · exp(0) · M⁻¹ = 1`, so applying it
to the incident vector returns the incident vector itself. -/
theorem exExpm_eval :
    (calculate_scattering_matrix
          (exC * Matrix.diagonal (fun j => (exV j : ℂ)) * exC.conjTranspose)
          exHkl exRc 1 0).mulVec (incident_beam_vector exHkl) =
      incident_beam_vector exHkl := by
  have hscal : (Complex.I * (Real.pi : ℂ) * ((0 : ℝ) : ℂ) * ((1 : ℝ) : ℂ)) = 0 := by
    norm_num
  simp only [calculate_scattering_matrix, exM_eval, hscal, zero_smul,
    NormedSpace.exp_zero, mul_one, Matrix.diagonal_mul_diagonal]
  have hdiag : (fun i => ((![1, 1 / 2] : Fin 2 → ℝ) i : ℂ) *
      ((1 / (![1, 1 / 2] : Fin 2 → ℝ) i : ℝ) : ℂ)) = fun _ => (1 : ℂ) := by
    funext i
    fin_cases i <;> · push_cast; norm_num
  rw [hdiag, Matrix.diagonal_one, Matrix.one_mulVec]

/-- Claim C4, counterexample to the literal statement: for the concrete
unitary eigenpair `(exV, exC)` of the Hermitian structure matrix
`A = exC · diag(exV) · exCᴴ` over the beam list `exHkl` (which contains the
`(0,0,0)` beam), at the shared thickness `z = 0` the eigendecomposition path
and the expm-method scattering-matrix path disagree: the former returns
`-12/25` at beam `1`, the latter `0`. -/
theorem dynamical_scattering_vs_scattering_matrix_counterexample :
    exC * exC.conjTranspose = 1 ∧ exC.conjTranspose * exC = 1 ∧
      exHkl 0 = 0 ∧ exHkl 1 ≠ 0 ∧
      dynamical_scattering_at exV exC exHkl exRc 1 0 ≠
        (calculate_scattering_matrix
            (exC * Matrix.diagonal (fun j => (exV j : ℂ)) * exC.conjTranspose)
            exHkl exRc 1 0).mulVec (incident_beam_vector exHkl) := by
  refine ⟨exC_unitary.1, exC_unitary.2, ?_, ?_, ?_⟩
  · funext j
    fin_cases j <;> simp [exHkl]
  · intro h
    have := congrFun h 2
    simp [exHkl] at this
  · intro h
    have h1 := congrFun h 1
    rw [exEigen_eval, exExpm_eval, exInit_eval] at h1
    simp at h1

/-- Claim C4 as amended: when additionally every tilt factor `M_i` equals `1`,
the eigendecomposition path of `calculate_dynamical_scattering` at any single
shared thickness `z` equals the expm-method path of
`calculate_scattering_matrix` applied to the unit incident vector: for a
unitary eigenpair `(v, C)` of the Hermitian structure matrix
`A = C · diag(v) · Cᴴ`, the two execution paths coincide exactly. -/
theorem dynamical_scattering_matches_scattering_matrix {n : ℕ} (v : Fin n → ℝ)
    (C : Matrix (Fin n) (Fin n) ℂ) (hkl : Fin n → Hkl) (rc : Mat3) (lam z : ℝ)
    (hC : C * C.conjTranspose = 1) (hC' : C.conjTranspose * C = 1)
    (hM : ∀ i, calculate_M_matrix hkl rc lam i = 1) :
    dynamical_scattering_at v C hkl rc lam z =
      (calculate_scattering_matrix
          (C * Matrix.diagonal (fun j => (v j : ℂ)) * C.conjTranspose)
          hkl rc lam z).mulVec (incident_beam_vector hkl) := by
  have hU : IsUnit C := ⟨⟨C, C.conjTranspose, hC, hC'⟩, rfl⟩
  rw [dynamical_scattering_at_tilt_free v C hkl rc lam z hM]
  have hMdiag :
      (Matrix.diagonal fun i => ((calculate_M_matrix hkl rc lam i : ℝ) : ℂ)) = 1 := by
    have hfun : (fun i => ((calculate_M_matrix hkl rc lam i : ℝ) : ℂ)) =
        fun _ => (1 : ℂ) := by
      funext i
      rw [hM i]
      norm_num
    rw [hfun, Matrix.diagonal_one]
  have hMinv :
      (Matrix.diagonal fun i => ((1 / calculate_M_matrix hkl rc lam i : ℝ) : ℂ)) = 1 := by
    have hfun : (fun i => ((1 / calculate_M_matrix hkl rc lam i : ℝ) : ℂ)) =
        fun _ => (1 : ℂ) := by
      funext i
      rw [hM i]
      norm_num
    rw [hfun, Matrix.diagonal_one]
  simp only [calculate_scattering_matrix, hMdiag, hMinv, one_mul, mul_one]
  set c : ℂ := Complex.I * (Real.pi : ℂ) * (z : ℂ) * (lam : ℂ) with hc
  have hsmul : C * (c • Matrix.diagonal (fun j => (v j : ℂ))) * C.conjTranspose =
      c • (C * Matrix.diagonal (fun j => (v j : ℂ)) * C.conjTranspose) := by
    rw [Matrix.mul_smul, Matrix.smul_mul]
  have hcD : c • Matrix.diagonal (fun j => (v j : ℂ)) =
      Matrix.diagonal (fun j => c * (v j : ℂ)) := by
    rw [← Matrix.diagonal_smul]
    congr 1
  have hexpand :
      NormedSpace.exp ℂ
          (c • (C * Matrix.diagonal (fun j => (v j : ℂ)) * C.conjTranspose)) =
        C * Matrix.diagonal (fun j => Complex.exp (c * (v j : ℂ))) * C.conjTranspose := by
    rw [← hsmul, hcD, ← Matrix.inv_eq_left_inv hC', Matrix.exp_conj ℂ C _ hU,
      Matrix.exp_diagonal, Pi.exp_def, Matrix.inv_eq_left_inv hC']
    congr 2
    funext j
    rw [← Complex.exp_eq_exp_ℂ]
  rw [hexpand, ← Matrix.mulVec_mulVec, ← Matrix.mulVec_mulVec]
  refine congrArg _ ?_
  funext j
  rw [Matrix.mulVec_diagonal]
  have harg : 2 * Complex.I * (Real.pi : ℂ) * (z : ℂ) * ((v j * lam / 2 : ℝ) : ℂ) =
      c * (v j : ℂ) := by
    rw [hc]
    push_cast
    ring
  rw [harg]

/-- Witness for the amended claim C4 on the trivial one-beam instance. -/
theorem dynamical_scattering_matches_scattering_matrix_witness :
    ((1 : Matrix (Fin 1) (Fin 1) ℂ) * (1 : Matrix (Fin 1) (Fin 1) ℂ).conjTranspose = 1) ∧
      dynamical_scattering_at (fun _ => 0) (1 : Matrix (Fin 1) (Fin 1) ℂ)
          (fun _ => (0 : Hkl)) 0 1 0 =
        (calculate_scattering_matrix
            ((1 : Matrix (Fin 1) (Fin 1) ℂ) *
                Matrix.diagonal (fun _ : Fin 1 => ((0 : ℝ) : ℂ)) *
              (1 : Matrix (Fin 1) (Fin 1) ℂ).conjTranspose)
            (fun _ => (0 : Hkl)) 0 1 0).mulVec
          (incident_beam_vector (fun _ => (0 : Hkl))) :=
  ⟨by simp,
    dynamical_scattering_matches_scattering_matrix (fun _ => 0) 1 (fun _ => 0) 0 1 0
      (by simp) (by simp) (fun i => by simp [calculate_M_matrix, gvec])⟩
